import Mathlib

/-!
Verification of the IntelliCenter multi-agent facility manager against its
natural-language specification.  Each component the claims touch is embedded
shallowly: pure Lean functions mirror the Python methods in
`src/intellicenter`, with external state (the asyncio message queue, Redis,
psutil memory readings, wall-clock durations) made into explicit parameters.
Quantities the source holds as floats (seconds, gigabytes, temperatures) are
embedded as rationals.
-/

namespace EventBus

/-- Topics are dotted strings compared by string equality
(`shared/event_bus.py` keys `subscribers` by the raw `event_type`). -/
abbrev Topic := String

/-- Message payloads travel through the bus as opaque strings. -/
abbrev Msg := String

/-- Embeds a subscribed callback of `EventBus`.  `hid` identifies the
callback; `throws m` says whether the callback raises an exception when
invoked on message `m` (a callback is arbitrary Python code, so its
raising behaviour is a parameter of the model). -/
structure Handler where
  hid : Nat
  throws : Msg → Bool

/-- Embeds the inner dispatch loop of `EventBus._process_queue`
(`for callback in self.subscribers[event_type]: ... callback(message)`).
Callbacks run in registration order (`subscribe` appends to a list).  The
only `except` clause of the source loop catches `asyncio.TimeoutError`, so
a callback exception propagates and dispatch stops at the raising callback.
Returns the list of callback invocations `(hid, topic, message)` together
with `true` iff no callback raised. -/
def runHandlers : List Handler → Topic → Msg → List (Nat × Topic × Msg) × Bool
  | [], _, _ => ([], true)
  | h :: hs, t, m =>
    if h.throws m then ([(h.hid, t, m)], false)
    else
      let r := runHandlers hs t m
      ((h.hid, t, m) :: r.1, r.2)

/-- Embeds `EventBus._process_queue`: events are taken from the single FIFO
`message_queue` in publish order and dispatched one at a time to the
handlers registered for the event's topic (a topic with no subscribers is
skipped, matching the `if event_type in self.subscribers` guard against the
`defaultdict`, since its handler list is empty).  If a callback raises, the
exception propagates out of the `while` loop — only `asyncio.TimeoutError`
is caught — so no later event is processed and the worker task dies with
the exception.  The second component is `true` iff the whole queue was
dispatched without a callback exception. -/
def processQueue (subs : Topic → List Handler) :
    List (Topic × Msg) → List (Nat × Topic × Msg) × Bool
  | [] => ([], true)
  | (t, m) :: rest =>
    let d := runHandlers (subs t) t m
    if d.2 then
      let r := processQueue subs rest
      (d.1 ++ r.1, r.2)
    else
      (d.1, false)

theorem runHandlers_of_no_throw (hs : List Handler) (t : Topic) (m : Msg)
    (hok : ∀ h ∈ hs, h.throws m = false) :
    runHandlers hs t m = (hs.map (fun h => (h.hid, t, m)), true) := by
  induction hs with
  | nil => rfl
  | cons h hs ih =>
    have h1 : h.throws m = false := hok h (List.mem_cons_self h hs)
    have h2 : ∀ g ∈ hs, g.throws m = false :=
      fun g hg => hok g (List.mem_cons_of_mem h hg)
    simp [runHandlers, h1, ih h2]

end EventBus

/-- C1: the claim says handler exceptions are caught at the bus boundary and
do not affect delivery to peers or to later events.  The source dispatch
loop catches only `asyncio.TimeoutError`, so a raising handler kills the
loop: at the concrete input below, topic `"hvac.temperature.changed"` has
two subscribers, the first of which raises on every message, and two
events are queued.  Only the raising handler's single invocation happens —
the peer handler (id 2) never receives the first event, the second event
is never delivered to anyone, and the exception propagates (`false`). -/
theorem C1_handler_exception_not_isolated :
    EventBus.processQueue
      (fun t => if t == "hvac.temperature.changed" then
          [⟨1, fun _ => true⟩, ⟨2, fun _ => false⟩] else [])
      [("hvac.temperature.changed", "m1"), ("hvac.temperature.changed", "m2")]
    = ([(1, "hvac.temperature.changed", "m1")], false) := rfl

/-- C8: per-topic FIFO delivery.  In a run where no callback raises, the
dispatch log restricted to topic `T` is exactly the `T`-events of the queue
in publish order, each fanned out to the handlers registered on `T` in
registration order.  (The claim's final clause — that no ordering is
guaranteed across different topics — is a non-guarantee and needs no
theorem.) -/
theorem C8_per_topic_fifo_delivery (subs : EventBus.Topic → List EventBus.Handler)
    (queue : List (EventBus.Topic × EventBus.Msg)) (T : EventBus.Topic)
    (hok : ∀ t m, ∀ h ∈ subs t, h.throws m = false) :
    (EventBus.processQueue subs queue).1.filter (fun d => d.2.1 == T)
      = (queue.filter (fun e => e.1 == T)).flatMap
          (fun e => (subs T).map (fun h => (h.hid, T, e.2))) := by
  induction queue with
  | nil => rfl
  | cons e rest ih =>
    obtain ⟨t, m⟩ := e
    rw [EventBus.processQueue]
    rw [EventBus.runHandlers_of_no_throw (subs t) t m (hok t m)]
    by_cases ht : t = T
    · subst ht
      simp only [beq_self_eq_true, if_true, List.filter_cons, List.filter_append,
        List.flatMap_cons]
      rw [List.filter_eq_self.mpr, ih]
      intro a ha
      simp only [List.mem_map] at ha
      obtain ⟨h, _, rfl⟩ := ha
      simp
    · have hne : (t == T) = false := by
        simp [ht]
      simp only [hne, if_true, List.filter_cons, List.filter_append,
        Bool.false_eq_true, if_false, ih]
      rw [List.filter_eq_nil_iff.mpr, List.nil_append]
      intro a ha
      simp only [List.mem_map] at ha
      obtain ⟨h, _, rfl⟩ := ha
      simp [hne]

/-- C8 witness: the per-topic FIFO theorem applied at a concrete bus with
one non-raising subscriber on topic `"a"` and a two-event queue. -/
theorem C8_per_topic_fifo_delivery_witness :
    (EventBus.processQueue
        (fun t => if t == "a" then [⟨1, fun _ => false⟩] else [])
        [("a", "m1"), ("b", "x"), ("a", "m2")]).1.filter (fun d => d.2.1 == "a")
      = ([("a", "m1"), ("b", "x"), ("a", "m2")].filter (fun e => e.1 == "a")).flatMap
          (fun e => ((fun (t : EventBus.Topic) =>
              if t == "a" then [(⟨1, fun _ => false⟩ : EventBus.Handler)] else []) "a").map
            (fun h => (h.hid, "a", e.2))) :=
  C8_per_topic_fifo_delivery
    (fun t => if t == "a" then [⟨1, fun _ => false⟩] else [])
    [("a", "m1"), ("b", "x"), ("a", "m2")] "a"
    (by
      intro t m h hm
      by_cases ht : t == "a"
      · simp only [ht, if_pos] at hm
        simp only [List.mem_singleton] at hm
        subst hm
        rfl
      · simp [ht] at hm)

namespace Coordinator

/-- Worker classes tracked by the Coordinator's `facility_status` mapping
(`coordinator.py` keys it by `AgentType.HVAC/POWER/SECURITY/NETWORK`). -/
inductive WorkerType
  | hvac
  | power
  | security
  | network
deriving DecidableEq, Repr, BEq

/-- Embeds the Coordinator's `facility_status` dictionary: one optional
response slot per worker class, all starting `None`.  `D` stands for the
parsed response payload stored in a slot (every branch of
`_update_facility_status` assigns the received data to the slot). -/
structure FacilityStatus (D : Type) where
  hvac : Option D
  power : Option D
  security : Option D
  network : Option D
deriving DecidableEq, Repr

/-- Initial `facility_status`: all four entries `None`. -/
def emptyStatus {D : Type} : FacilityStatus D := ⟨none, none, none, none⟩

/-- Reads the slot of a worker class. -/
def slot {D : Type} (st : FacilityStatus D) : WorkerType → Option D
  | .hvac => st.hvac
  | .power => st.power
  | .security => st.security
  | .network => st.network

/-- Embeds `self.facility_status[agent_type] = data` (later responses
overwrite earlier ones for the same slot). -/
def updateSlot {D : Type} (st : FacilityStatus D) (w : WorkerType) (d : D) :
    FacilityStatus D :=
  match w with
  | .hvac => { st with hvac := some d }
  | .power => { st with power := some d }
  | .security => { st with security := some d }
  | .network => { st with network := some d }

/-- Embeds `all(v is not None for v in self.facility_status.values())`. -/
def allFilled {D : Type} (st : FacilityStatus D) : Bool :=
  st.hvac.isSome && st.power.isSome && st.security.isSome && st.network.isSome

/-- Embeds `_update_facility_status` followed by the publication side of
`_trigger_coordination_analysis`: the slot of the responding class is
updated; when all four slots are non-null the Coordinator runs the
coordination routine — which publishes exactly one
`facility.coordination.directive` (one in the success branch of
`_run_coordination_analysis`, one emergency directive in its `except`
branch) — and then resets every slot to `None`
(`self.facility_status = {key: None for key in self.facility_status}`).
Returns the next status and the number of directives published.  The model
serializes response handling: each response's processing, including the
coordination routine it may trigger, runs to completion before the next
response is handled (the asyncio schedule in which each spawned
`_update_facility_status` task finishes, awaited coordination routine
included, before the next response task starts). -/
def processResponse {D : Type} (st : FacilityStatus D) (w : WorkerType) (d : D) :
    FacilityStatus D × Nat :=
  let st1 := updateSlot st w d
  if allFilled st1 then (emptyStatus, 1) else (st1, 0)

/-- Processes a sequence of worker responses in arrival order, accumulating
the number of coordination directives published. -/
def runResponses {D : Type} (st : FacilityStatus D) :
    List (WorkerType × D) → FacilityStatus D × Nat
  | [] => (st, 0)
  | (w, d) :: rest =>
    let p := processResponse st w d
    let r := runResponses p.1 rest
    (r.1, p.2 + r.2)

/-- Number of responses contributed by worker class `w` in a sequence. -/
def countResponses {D : Type} (w : WorkerType) (evs : List (WorkerType × D)) : Nat :=
  (evs.filter (fun e => e.1 = w)).length

/-- 1 when the slot of `w` is filled, 0 otherwise. -/
def slotFilled {D : Type} (st : FacilityStatus D) (w : WorkerType) : Nat :=
  if (slot st w).isSome then 1 else 0

theorem slot_updateSlot_self {D : Type} (st : FacilityStatus D) (w : WorkerType) (d : D) :
    slot (updateSlot st w d) w = some d := by
  cases w <;> rfl

theorem slot_updateSlot_ne {D : Type} (st : FacilityStatus D) (w v : WorkerType) (d : D)
    (h : w ≠ v) : slot (updateSlot st w d) v = slot st v := by
  cases w <;> cases v <;> first | rfl | exact absurd rfl h

theorem allFilled_slot {D : Type} (st : FacilityStatus D) (w : WorkerType)
    (h : allFilled st = true) : (slot st w).isSome = true := by
  simp only [allFilled, Bool.and_eq_true] at h
  cases w <;> simp [slot, h.1, h.2]

/-- Core counting invariant: along any run, the number of directives
published plus the fill indicator of any slot is bounded by the initial
fill indicator plus the responses contributed by that class — each
published directive consumes at least one response of every class. -/
theorem runResponses_count_le {D : Type} (w : WorkerType) :
    ∀ (evs : List (WorkerType × D)) (st : FacilityStatus D),
      (runResponses st evs).2 + slotFilled (runResponses st evs).1 w ≤
        slotFilled st w + countResponses w evs := by
  intro evs
  induction evs with
  | nil =>
    intro st
    simp [runResponses, countResponses]
  | cons e rest ih =>
    intro st
    obtain ⟨a, d⟩ := e
    by_cases hfill : allFilled (updateSlot st a d) = true
    · have hstep : processResponse st a d = (emptyStatus, 1) := by
        simp [processResponse, hfill]
      have hone : 1 ≤ slotFilled st w + (if a = w then 1 else 0) := by
        by_cases haw : a = w
        · simp only [if_pos haw]
          omega
        · have hsl : (slot st w).isSome = true := by
            have h5 := allFilled_slot (updateSlot st a d) w hfill
            rwa [slot_updateSlot_ne st a w d haw] at h5
          simp only [slotFilled, hsl, if_neg haw, if_true]
          omega
      have hcount : countResponses w ((a, d) :: rest) =
          (if a = w then 1 else 0) + countResponses w rest := by
        by_cases haw : a = w <;>
          simp [countResponses, List.filter_cons, haw] <;> omega
      calc (runResponses st ((a, d) :: rest)).2 +
              slotFilled (runResponses st ((a, d) :: rest)).1 w
          = 1 + (runResponses emptyStatus rest).2 +
              slotFilled (runResponses emptyStatus rest).1 w := by
            simp [runResponses, hstep]
        _ = 1 + ((runResponses emptyStatus rest).2 +
              slotFilled (runResponses emptyStatus rest).1 w) := by omega
        _ ≤ 1 + (slotFilled (emptyStatus (D := D)) w + countResponses w rest) :=
            Nat.add_le_add_left (ih emptyStatus) 1
        _ = 1 + countResponses w rest := by
            cases w <;> simp [slotFilled, emptyStatus, slot]
        _ ≤ slotFilled st w + (if a = w then 1 else 0) + countResponses w rest := by
            omega
        _ = slotFilled st w + countResponses w ((a, d) :: rest) := by
            rw [hcount]; omega
    · have hstep : processResponse st a d = (updateSlot st a d, 0) := by
        simp [processResponse, hfill]
      have hupd : slotFilled (updateSlot st a d) w ≤
          slotFilled st w + (if a = w then 1 else 0) := by
        by_cases haw : a = w
        · subst haw
          simp only [slotFilled, slot_updateSlot_self, Option.isSome_some, if_true]
          omega
        · simp only [slotFilled, slot_updateSlot_ne st a w d haw, if_neg haw]
          omega
      have hcount : countResponses w ((a, d) :: rest) =
          (if a = w then 1 else 0) + countResponses w rest := by
        by_cases haw : a = w <;>
          simp [countResponses, List.filter_cons, haw] <;> omega
      calc (runResponses st ((a, d) :: rest)).2 +
              slotFilled (runResponses st ((a, d) :: rest)).1 w
          = (runResponses (updateSlot st a d) rest).2 +
              slotFilled (runResponses (updateSlot st a d) rest).1 w := by
            simp [runResponses, hstep]
        _ ≤ slotFilled (updateSlot st a d) w + countResponses w rest :=
            ih (updateSlot st a d)
        _ ≤ slotFilled st w + (if a = w then 1 else 0) + countResponses w rest := by
            omega
        _ = slotFilled st w + countResponses w ((a, d) :: rest) := by
            rw [hcount]; omega

end Coordinator

/-- C4: quorum discipline of the Coordinator.  First conjunct: starting from
the all-null `facility_status`, the number of coordination directives
published over any response sequence never exceeds the number of responses
contributed by any single worker class — so the k-th directive requires at
least k responses from each of HVAC, Power, Security and Network, and in
particular no directive is published until every class has contributed at
least one response since the last reset; extra responses for an
already-filled slot (they only overwrite it) never trigger a directive by
themselves.  Second conjunct: a response completes a quorum exactly when it
makes all four slots non-null, in which case exactly one directive is
published and all four slots are reset to null; otherwise no directive is
published.  Third conjunct: immediately after a reset a single response
never completes a quorum (the other three slots are still null). -/
theorem C4_coordinator_quorum {D : Type} :
    (∀ (evs : List (Coordinator.WorkerType × D)) (w : Coordinator.WorkerType),
        (Coordinator.runResponses Coordinator.emptyStatus evs).2 ≤
          Coordinator.countResponses w evs)
    ∧ (∀ (st : Coordinator.FacilityStatus D) (w : Coordinator.WorkerType) (d : D),
        Coordinator.processResponse st w d =
          if Coordinator.allFilled (Coordinator.updateSlot st w d) then
            (Coordinator.emptyStatus, 1)
          else (Coordinator.updateSlot st w d, 0))
    ∧ (∀ (w : Coordinator.WorkerType) (d : D),
        Coordinator.allFilled
          (Coordinator.updateSlot (Coordinator.emptyStatus (D := D)) w d) = false) := by
  refine ⟨fun evs w => ?_, fun st w d => rfl, fun w d => ?_⟩
  · have h := Coordinator.runResponses_count_le w evs Coordinator.emptyStatus
    have hz : Coordinator.slotFilled (Coordinator.emptyStatus (D := D)) w = 0 := by
      cases w <;> rfl
    omega
  · cases w <;> rfl

namespace Conflict

/-- Embeds one entry of the `conflicting_decisions` list handled by
`ConflictResolutionTool._run`.  Fields are optional because the source
reads them with `decision.get(key, default)`. -/
structure ConflictDecision where
  agentType : Option String
  priority : Option String
  action : Option String
deriving DecidableEq, Repr

/-- The `priority_order` list of `ConflictResolutionTool._run`. -/
def priorityOrder : List String := ["critical", "high", "medium", "low"]

/-- Embeds `priority_order.index(p)`: position of `p` in `priority_order`,
`none` when absent (where the Python `.index` raises `ValueError`). -/
def priorityRank (p : String) : Option Nat :=
  priorityOrder.findIdx? (fun q => q == p)

/-- Embeds `decision.get("priority", "low")`. -/
def effPriority (d : ConflictDecision) : String := d.priority.getD "low"

/-- Embeds `decision.get("agent_type", "unknown")`. -/
def effAgentType (d : ConflictDecision) : String := d.agentType.getD "unknown"

/-- Embeds `decision.get("action", "unknown")`. -/
def effAction (d : ConflictDecision) : String := d.action.getD "unknown"

/-- Stable insertion into a descending-by-key list: the inserted element
(originally earlier in the input) goes before every element whose key is
not larger. -/
def insertDescBy (key : ConflictDecision → Nat) (a : ConflictDecision) :
    List ConflictDecision → List ConflictDecision
  | [] => [a]
  | b :: bs =>
    if key b ≤ key a then a :: b :: bs else b :: insertDescBy key a bs

/-- Stable descending sort by key: the unique permutation that Python's
stable `sorted(..., key=..., reverse=True)` produces. -/
def sortDescBy (key : ConflictDecision → Nat) :
    List ConflictDecision → List ConflictDecision
  | [] => []
  | a :: as => insertDescBy key a (sortDescBy key as)

/-- Embeds the `sorted(conflicting_decisions,
key=lambda x: priority_order.index(x.get("priority", "low")), reverse=True)`
call of `ConflictResolutionTool._run`: a stable descending sort by the
index of the decision's priority in `priority_order` (so `critical` has key
0 and `low` has key 3, and `reverse=True` puts the larger index first).
Returns `Except.error ()` when some priority string is not in
`priority_order` (Python raises `ValueError` from `.index`). -/
def sortedDecisions (conflicting : List ConflictDecision) :
    Except Unit (List ConflictDecision) :=
  if conflicting.all (fun d => (priorityRank (effPriority d)).isSome) then
    .ok (sortDescBy (fun d => (priorityRank (effPriority d)).getD 0) conflicting)
  else
    .error ()

/-- Declared inter-agent dependencies: the Coordinator constructor's
`system_dependencies` table (keys and values are `AgentType` members whose
string values are the `*_agent` names, since `AgentType` is a `StrEnum`). -/
def systemDependencies : List (String × List String) :=
  [("hvac_agent", ["power_agent"]),
   ("power_agent", ["network_agent"]),
   ("security_agent", ["network_agent", "power_agent"]),
   ("network_agent", ["power_agent"])]

/-- Embeds the resolution lines appended for one decision by
`ConflictResolutionTool._run`: the decision line, then a dependency line
when `system_dependencies` has a non-empty entry for the agent type. -/
def decisionLines (d : ConflictDecision) : List String :=
  let base := effAgentType d ++ ": " ++ effAction d ++
    " (Priority: " ++ effPriority d ++ ")"
  match systemDependencies.lookup (effAgentType d) with
  | some deps =>
    if deps.isEmpty then [base]
    else [base, "  Dependencies: " ++ String.intercalate ", " deps]
  | none => [base]

/-- Embeds `ConflictResolutionTool._run`: empty input short-circuits;
otherwise the decisions are sorted and rendered in sorted order. -/
def conflictResolutionOutput (conflicting : List ConflictDecision) :
    Except Unit String :=
  if conflicting.isEmpty then .ok "No conflicts detected"
  else
    match sortedDecisions conflicting with
    | .ok sorted =>
      .ok ("Conflict Resolution:\n" ++
        String.intercalate "\n" (sorted.flatMap decisionLines))
    | .error e => .error e

/-- Observable outcome of `CoordinatorAgent._handle_coordination_conflict`:
which topic is published and by how much the `conflicts_resolved` metric
grows. -/
structure ConflictHandlerResult where
  publishedTopic : String
  conflictsResolvedIncrement : Nat
deriving DecidableEq, Repr

/-- Embeds `CoordinatorAgent._handle_coordination_conflict`: when the tool
succeeds, the metric `conflicts_resolved` is incremented by one and one
`facility.coordination.conflict_resolution` directive is published; when
the tool raises, the `except` branch publishes
`facility.coordination.conflict_error` and the metric is untouched. -/
def handleCoordinationConflict (conflicting : List ConflictDecision) :
    ConflictHandlerResult :=
  match conflictResolutionOutput conflicting with
  | .ok _ => ⟨"facility.coordination.conflict_resolution", 1⟩
  | .error _ => ⟨"facility.coordination.conflict_error", 0⟩

/-- A low-priority HVAC decision. -/
def dLow : ConflictDecision :=
  ⟨some "hvac_agent", some "low", some "reduce_cooling"⟩

/-- A critical-priority Security decision. -/
def dCrit : ConflictDecision :=
  ⟨some "security_agent", some "critical", some "lockdown"⟩

end Conflict

/-- C5: the claim says conflicting decisions are sorted critical before
high before medium before low.  The source sorts by
`priority_order.index(...)` with `reverse=True`, which puts the LARGEST
index first — `low` (index 3) before `critical` (index 0), the opposite
order.  At the concrete two-decision input, whichever way the decisions
arrive, the sorted list places the low-priority decision before the
critical one; the resolution directive is still emitted and the
conflicts-resolved metric still increments by one. -/
theorem C5_conflicts_sorted_low_first :
    Conflict.sortedDecisions [Conflict.dLow, Conflict.dCrit]
        = .ok [Conflict.dLow, Conflict.dCrit]
    ∧ Conflict.sortedDecisions [Conflict.dCrit, Conflict.dLow]
        = .ok [Conflict.dLow, Conflict.dCrit]
    ∧ [Conflict.dLow, Conflict.dCrit] ≠ [Conflict.dCrit, Conflict.dLow]
    ∧ Conflict.handleCoordinationConflict [Conflict.dCrit, Conflict.dLow]
        = ⟨"facility.coordination.conflict_resolution", 1⟩ := by
  refine ⟨rfl, rfl, ?_, rfl⟩
  decide

namespace HVAC

/-- Observable fields of the decision dict built by
`HVACControlAgent._run_enhanced_analysis`: the chosen cooling level, the
`status` value, and whether the decision is a fallback (the source marks
this `fallback_triggered: True` on the fallback-mode branch and
`fallback: True` in `_generate_fallback_decision`; both are embedded as
`isFallback`).  Remaining dict keys (reasoning, timestamps, error text)
do not bear on the claim. -/
structure HVACDecision where
  coolingLevel : String
  status : String
  isFallback : Bool
deriving DecidableEq, Repr

/-- Embeds `HVACControlAgent._generate_fallback_decision`: the rule-based
cooling level `"high" if temp > 26 else "medium" if temp > 24 else "low"`,
with `status: "fallback"` and `fallback: True`. -/
def generateFallbackDecision (temp : ℚ) : HVACDecision :=
  ⟨if temp > 26 then "high" else if temp > 24 then "medium" else "low",
   "fallback", true⟩

/-- Embeds the decision produced by
`HVACControlAgent._run_enhanced_analysis` for input temperature `temp`.
When `self.fallback_mode` is set (agent startup failed), the source builds
a decision with the fixed `"cooling_level": "medium"` — the comment calls
it the default fallback level — and never consults the temperature.
Otherwise the CrewAI path runs; `crewResult` carries either the decision
assembled by `_process_crew_result` (`.ok`) or the exception raised along
the way (`.error`, e.g. the LLM call failing), in which case the `except`
branch falls back to `_generate_fallback_decision`. -/
def runEnhancedAnalysis (fallbackMode : Bool)
    (crewResult : Except String HVACDecision) (temp : ℚ) : HVACDecision :=
  if fallbackMode then ⟨"medium", "fallback", true⟩
  else
    match crewResult with
    | .ok d => d
    | .error _ => generateFallbackDecision temp

theorem generateFallbackDecision_coolingLevel (t : ℚ) :
    ((generateFallbackDecision t).coolingLevel = "high" ↔ 26 < t)
    ∧ ((generateFallbackDecision t).coolingLevel = "medium" ↔ (24 < t ∧ t ≤ 26))
    ∧ ((generateFallbackDecision t).coolingLevel = "low" ↔ t ≤ 24) := by
  unfold generateFallbackDecision
  split_ifs with h1 h2
  · exact ⟨⟨fun _ => h1, fun _ => rfl⟩,
      ⟨fun hc => absurd hc (by decide), fun hc => (by linarith [hc.2] : False).elim⟩,
      ⟨fun hc => absurd hc (by decide), fun hc => (by linarith : False).elim⟩⟩
  · exact ⟨⟨fun hc => absurd hc (by decide), fun hgt => (h1 hgt).elim⟩,
      ⟨fun _ => ⟨h2, le_of_not_lt h1⟩, fun _ => rfl⟩,
      ⟨fun hc => absurd hc (by decide), fun hle => (by linarith : False).elim⟩⟩
  · exact ⟨⟨fun hc => absurd hc (by decide), fun hgt => (h1 hgt).elim⟩,
      ⟨fun hc => absurd hc (by decide), fun hc => (h2 hc.1).elim⟩,
      ⟨fun _ => le_of_not_lt h2, fun _ => rfl⟩⟩

end HVAC

/-- C6 counterexample: the claim says that WHENEVER the HVAC worker takes
its fallback path the cooling level follows the strict temperature
thresholds (`> 26 → high`).  But the fallback-mode path
of `_run_enhanced_analysis` (taken when agent startup failed) hard-codes
`cooling_level = "medium"`: at temperature 30 — strictly above 26, where
the claim demands `"high"` — the published fallback decision says
`"medium"`. -/
theorem C6_fallback_mode_ignores_temperature :
    (HVAC.runEnhancedAnalysis true (.error "llm unavailable") 30).coolingLevel
        = "medium"
    ∧ (26 : ℚ) < 30
    ∧ ("medium" : String) ≠ "high"
    ∧ (HVAC.runEnhancedAnalysis true (.error "llm unavailable") 30).isFallback
        = true := by
  refine ⟨rfl, by norm_num, by decide, rfl⟩

/-- C6 amended: when the HVAC worker falls back because its analysis raised
(the rule-based fallback of `_generate_fallback_decision`), the cooling
level is determined by the input temperature with strict thresholds —
`high` exactly when `temp > 26`, `medium` exactly when `24 < temp ≤ 26`
(so 24.0001 yields medium), and `low` exactly when `temp ≤ 24` (so exactly
24.0 yields low); the startup fallback-mode path instead always emits the
fixed level `medium`. -/
theorem C6_rule_based_fallback_thresholds :
    (∀ (t : ℚ) (e : String),
        ((HVAC.runEnhancedAnalysis false (.error e) t).coolingLevel = "high"
            ↔ 26 < t)
        ∧ ((HVAC.runEnhancedAnalysis false (.error e) t).coolingLevel = "medium"
            ↔ (24 < t ∧ t ≤ 26))
        ∧ ((HVAC.runEnhancedAnalysis false (.error e) t).coolingLevel = "low"
            ↔ t ≤ 24))
    ∧ (∀ (c : Except String HVAC.HVACDecision) (t : ℚ),
        (HVAC.runEnhancedAnalysis true c t).coolingLevel = "medium")
    ∧ (HVAC.runEnhancedAnalysis false (.error "e") (24 + 1/10000)).coolingLevel
        = "medium"
    ∧ (HVAC.runEnhancedAnalysis false (.error "e") (26 + 1/10000)).coolingLevel
        = "high"
    ∧ (HVAC.runEnhancedAnalysis false (.error "e") 24).coolingLevel = "low" := by
  refine ⟨fun t e => HVAC.generateFallbackDecision_coolingLevel t,
    fun c t => rfl, ?_, ?_, ?_⟩ <;>
    norm_num [HVAC.runEnhancedAnalysis, HVAC.generateFallbackDecision]

namespace Scenario

/-- The `ScenarioState` enum of `shared/schema.py`. -/
inductive SState
  | idle
  | initializing
  | running
  | paused
  | completed
  | failed
  | resetting
deriving DecidableEq, Repr

/-- String value of a `ScenarioState` member (it is a `StrEnum`, so
interpolation yields the value). -/
def SState.value : SState → String
  | .idle => "idle"
  | .initializing => "initializing"
  | .running => "running"
  | .paused => "paused"
  | .completed => "completed"
  | .failed => "failed"
  | .resetting => "resetting"

/-- The keys of a scenario's `success_criteria` dict that
`_evaluate_scenario_success` actually reads: `max_response_time` (absent
for Routine Maintenance), `required_agents_responded` (absent for Routine
Maintenance), and `coordination_achieved` (read with default `False`).
Other keys of the dict (e.g. `temperature_stabilized`,
`maintenance_completed`) are never consulted by the evaluator. -/
structure SuccessCriteria where
  maxResponseTime : Option ℚ
  requiredAgentsResponded : Option (List String)
  coordinationAchieved : Bool
deriving DecidableEq, Repr

/-- The run data `_evaluate_scenario_success` consults: step counts from
`scenario_result`, the elapsed seconds since `start_time` at evaluation
time, the keys of `agent_responses`, and how many recorded events match
the coordination filter. -/
structure RunTracking where
  stepsCompleted : Nat
  stepsTotal : Nat
  durationAtEval : ℚ
  respondingAgents : List String
  coordinationEventCount : Nat
deriving DecidableEq, Repr

/-- Embeds the `max_response_time` check: present in `success_criteria` and
exceeded by the scenario duration. -/
def durationCheckFails (c : SuccessCriteria) (r : RunTracking) : Bool :=
  match c.maxResponseTime with
  | some mx => decide (mx < r.durationAtEval)
  | none => false

/-- Embeds the `required_agents_responded` subset check failing. -/
def agentsCheckFails (c : SuccessCriteria) (r : RunTracking) : Bool :=
  match c.requiredAgentsResponded with
  | some req => !(req.all (fun a => r.respondingAgents.contains a))
  | none => false

/-- Embeds the `coordination_achieved` check failing: the flag is set and
no coordination event was recorded. -/
def coordinationCheckFails (c : SuccessCriteria) (r : RunTracking) : Bool :=
  c.coordinationAchieved && (r.coordinationEventCount == 0)

/-- Embeds `ScenarioOrchestrator._evaluate_scenario_success`: completion
rate below 0.8 fails; a present `max_response_time` criterion compares the
WHOLE scenario duration against that value (not against
`max_duration_seconds`, which the evaluator never reads); then required
agents and coordination.  The Python float division `steps_completed /
steps_total` is embedded as rational division (the evaluator is only
reached with a non-empty step list, `stepsTotal > 0`). -/
def evaluateScenarioSuccess (c : SuccessCriteria) (r : RunTracking) : Bool :=
  if (r.stepsCompleted : ℚ) / (r.stepsTotal : ℚ) < 4 / 5 then false
  else if durationCheckFails c r then false
  else if agentsCheckFails c r then false
  else if coordinationCheckFails c r then false
  else true

/-- The fields of the final `ScenarioResult` the claim speaks about, as
set by `_complete_scenario`: `success` is the evaluator's verdict,
`duration_seconds` the elapsed time at completion, and the state becomes
`COMPLETED` (evaluation and completion are adjacent in
`_execute_scenario`; the model takes them at the same instant). -/
structure ResultRecord where
  success : Bool
  durationSeconds : ℚ
  stepsCompleted : Nat
  stepsTotal : Nat
  state : SState
deriving DecidableEq, Repr

/-- Embeds `_evaluate_scenario_success` followed by `_complete_scenario`,
which runs unconditionally after the step loop of `_execute_scenario`. -/
def completeScenario (c : SuccessCriteria) (r : RunTracking) : ResultRecord :=
  ⟨evaluateScenarioSuccess c r, r.durationAtEval, r.stepsCompleted,
   r.stepsTotal, .completed⟩

/-- Routine Maintenance: `max_duration_seconds=60.0` in
`_create_scenario_definitions`. -/
def routineMaintenanceMaxDuration : ℚ := 60

/-- Routine Maintenance `success_criteria`: only `maintenance_completed`,
`systems_validated` and `coordination_achieved` — no `max_response_time`
and no `required_agents_responded` key. -/
def routineMaintenanceCriteria : SuccessCriteria := ⟨none, none, true⟩

end Scenario

/-- C7 counterexample: the claim says every run marked `success=true` has
`duration_sec ≤ max_duration_sec`.  With the Routine Maintenance success
criteria (no `max_response_time` key) and a run that completed all 4 steps
but took 100 s — over the 60 s `max_duration_seconds` budget — the
evaluator still returns success: the completed result is marked
`success=true` with `duration_seconds = 100 > 60`.  (Concretely this
arises when the scenario timeout fires during the run: `_execute_scenario`
still calls `_evaluate_scenario_success` and `_complete_scenario` after
the step loop, overwriting the timeout failure.) -/
theorem C7_success_despite_budget_overrun :
    (Scenario.completeScenario Scenario.routineMaintenanceCriteria
        ⟨4, 4, 100, ["hvac_agent", "network_agent", "coordinator_agent"], 2⟩).success
        = true
    ∧ (Scenario.completeScenario Scenario.routineMaintenanceCriteria
        ⟨4, 4, 100, ["hvac_agent", "network_agent", "coordinator_agent"], 2⟩).durationSeconds
        = 100
    ∧ Scenario.routineMaintenanceMaxDuration < 100 := by
  refine ⟨?_, rfl, by norm_num [Scenario.routineMaintenanceMaxDuration]⟩
  norm_num [Scenario.completeScenario, Scenario.evaluateScenarioSuccess,
    Scenario.routineMaintenanceCriteria, Scenario.durationCheckFails,
    Scenario.agentsCheckFails, Scenario.coordinationCheckFails]

/-- C7 amended: every run marked `success=true` completed at least 80% of
its total steps; the duration bound enforced at evaluation is not the
scenario's `max_duration_seconds` but the `max_response_time` entry of the
success criteria, and only when that key is present. -/
theorem C7_success_implies_completion_rate (c : Scenario.SuccessCriteria)
    (r : Scenario.RunTracking) (htot : 0 < r.stepsTotal)
    (hs : (Scenario.completeScenario c r).success = true) :
    4 * r.stepsTotal ≤ 5 * r.stepsCompleted
    ∧ ∀ mx, c.maxResponseTime = some mx → r.durationAtEval ≤ mx := by
  have hev : Scenario.evaluateScenarioSuccess c r = true := hs
  unfold Scenario.evaluateScenarioSuccess at hev
  split_ifs at hev with h1 h2 h3 h4
  constructor
  · have hrate : (4 : ℚ) / 5 ≤ (r.stepsCompleted : ℚ) / (r.stepsTotal : ℚ) :=
      not_lt.mp h1
    have htq : (0 : ℚ) < (r.stepsTotal : ℚ) := by exact_mod_cast htot
    rw [div_le_div_iff (by norm_num) htq] at hrate
    have hq : (4 : ℚ) * (r.stepsTotal : ℚ) ≤ 5 * (r.stepsCompleted : ℚ) := by
      linarith
    exact_mod_cast hq
  · intro mx hmx
    unfold Scenario.durationCheckFails at h2
    rw [hmx] at h2
    simp only [decide_eq_true_eq] at h2
    exact le_of_not_lt h2

/-- C7 witness: the amended theorem applied to a run with all five steps
completed in 10 s against criteria carrying `max_response_time = 15`. -/
theorem C7_success_implies_completion_rate_witness :
    4 * 5 ≤ 5 * 5
    ∧ ∀ mx, (⟨some 15, none, false⟩ : Scenario.SuccessCriteria).maxResponseTime
        = some mx → (10 : ℚ) ≤ mx :=
  C7_success_implies_completion_rate ⟨some 15, none, false⟩ ⟨5, 5, 10, [], 0⟩
    (by norm_num)
    (by norm_num [Scenario.completeScenario, Scenario.evaluateScenarioSuccess,
      Scenario.durationCheckFails, Scenario.agentsCheckFails,
      Scenario.coordinationCheckFails])

namespace Scenario

/-- A cleanup step as used by `reset_scenario`: only its `step_id` and the
`event_type` it publishes matter here (`_execute_cleanup_steps` publishes
`step.event_type` with the step's payload plus a `cleanup` marker). -/
structure CleanupStep where
  stepId : String
  eventType : String
deriving DecidableEq, Repr

/-- The slice of a `ScenarioConfig` that `reset_scenario` consults. -/
structure ScenarioCfg where
  scenarioId : String
  cleanupSteps : List CleanupStep
deriving DecidableEq, Repr

/-- Orchestrator state fields driving `reset_scenario` and the state-guard
of `trigger_scenario`. -/
structure OrchState where
  scenarioState : SState
  currentScenario : Option ScenarioCfg
deriving DecidableEq, Repr

/-- Cleanup steps of the Cooling Crisis definition in
`_create_scenario_definitions`: `reset_temperature` publishes
`hvac.temperature.changed` and `reset_systems` publishes
`demo.scenario.reset`. -/
def coolingCrisisCleanupSteps : List CleanupStep :=
  [⟨"reset_temperature", "hvac.temperature.changed"⟩,
   ⟨"reset_systems", "demo.scenario.reset"⟩]

/-- Cleanup steps of the Routine Maintenance definition:
`reset_maintenance_state` publishes `facility.maintenance.reset` (not
`demo.scenario.reset`). -/
def routineMaintenanceCleanupSteps : List CleanupStep :=
  [⟨"reset_maintenance_state", "facility.maintenance.reset"⟩]

/-- Embeds `ScenarioOrchestrator.reset_scenario`: set `RESETTING`, cancel
timers, run `_execute_cleanup_steps` when a current scenario with cleanup
steps exists (publishing each step's `event_type` in order), clear all
state variables, publish one `demo.scenario.reset`, set `IDLE`, return
`True`.  The result is the new state, the list of published topics in
publish order, and the success flag. -/
def resetScenario (st : OrchState) : OrchState × List String × Bool :=
  let cleanupPubs :=
    match st.currentScenario with
    | some cfg =>
      if cfg.cleanupSteps.isEmpty then []
      else cfg.cleanupSteps.map (fun s => s.eventType)
    | none => []
  (⟨.idle, none⟩, cleanupPubs ++ ["demo.scenario.reset"], true)

end Scenario

/-- C9 counterexample: the claim says each of two consecutive `reset()`
calls publishes exactly one `demo.scenario.reset`.  After a Cooling Crisis
run, the current scenario's cleanup steps themselves publish
`demo.scenario.reset` (`reset_systems`), so the first reset publishes TWO
events on that topic. -/
theorem C9_first_reset_publishes_two :
    ((Scenario.resetScenario
        ⟨.completed, some ⟨"cooling_crisis_demo", Scenario.coolingCrisisCleanupSteps⟩⟩).2.1.count
      "demo.scenario.reset") = 2 ∧ (2 : Nat) ≠ 1 := by
  refine ⟨?_, by decide⟩
  rfl

/-- C9 amended: `reset()` twice in a row is idempotent — both calls
succeed, both leave the orchestrator `IDLE`, and the state after the
second reset equals the state after the first.  The second reset (whose
state has no current scenario) publishes exactly one `demo.scenario.reset`;
the first publishes one plus one per cleanup step of the current scenario
whose `event_type` is `demo.scenario.reset` — zero such steps for Routine
Maintenance (the spec's test scenario), where each of the two calls
publishes exactly one. -/
theorem C9_reset_idempotent (st : Scenario.OrchState) :
    (Scenario.resetScenario st).2.2 = true
    ∧ (Scenario.resetScenario (Scenario.resetScenario st).1).2.2 = true
    ∧ (Scenario.resetScenario st).1.scenarioState = .idle
    ∧ (Scenario.resetScenario (Scenario.resetScenario st).1).1
        = (Scenario.resetScenario st).1
    ∧ (Scenario.resetScenario (Scenario.resetScenario st).1).2.1.count
        "demo.scenario.reset" = 1
    ∧ (Scenario.resetScenario st).2.1.count "demo.scenario.reset"
        = 1 + ((match st.currentScenario with
                | some cfg => cfg.cleanupSteps.map
                    (fun (s : Scenario.CleanupStep) => s.eventType)
                | none => []).count "demo.scenario.reset")
    ∧ (Scenario.resetScenario
        ⟨.completed, some ⟨"routine_maintenance_demo",
          Scenario.routineMaintenanceCleanupSteps⟩⟩).2.1.count
        "demo.scenario.reset" = 1 := by
  obtain ⟨s, cfg⟩ := st
  refine ⟨rfl, rfl, rfl, rfl, rfl, ?_, rfl⟩
  cases cfg with
  | none => rfl
  | some c =>
    by_cases he : c.cleanupSteps.isEmpty
    · have hnil : c.cleanupSteps = [] := List.isEmpty_iff.mp he
      simp [Scenario.resetScenario, hnil]
    · have hne : c.cleanupSteps.isEmpty = false := by
        simp_all
      simp [Scenario.resetScenario, hne, List.count_append]
      omega

namespace Scenario

/-- The fields of the `ScenarioResult` returned by `trigger_scenario` that
the claim observes. -/
structure TriggerResult where
  success : Bool
  errorMessage : Option String
  state : SState
deriving DecidableEq, Repr

/-- Embeds `ScenarioOrchestrator.trigger_scenario`.  The state guard
`if self.scenario_state not in [IDLE, COMPLETED, FAILED]` raises a
`RuntimeError` that the function's own `except` clause catches: it builds
an error `ScenarioResult` with `success=False`, the error text, and state
`FAILED`, stores it, sets `self.scenario_state = FAILED`, and RETURNS the
error result — nothing propagates to the caller.  (The `ValueError` branch
for an unknown scenario type is unreachable: `_create_scenario_definitions`
covers every `ScenarioType` member.)  The accepted path — initialization
and step execution — is abstracted as the continuation `exec`, which the
claim does not constrain. -/
def triggerScenario (exec : OrchState → String → OrchState × TriggerResult)
    (st : OrchState) (stype : String) : OrchState × TriggerResult :=
  if st.scenarioState = .idle ∨ st.scenarioState = .completed
      ∨ st.scenarioState = .failed then
    exec st stype
  else
    ({ st with scenarioState := .failed },
     ⟨false,
      some ("Cannot start scenario: current state is " ++ st.scenarioState.value),
      .failed⟩)

end Scenario

/-- C10: calling `trigger_scenario` while the orchestrator is RUNNING or
PAUSED does not raise to the caller; it returns a result with
`success=false` and an error message, and it overwrites the orchestrator's
state to FAILED — so the in-progress scenario's state is changed by the
rejected call. -/
theorem C10_trigger_while_running_fails_state
    (exec : Scenario.OrchState → String → Scenario.OrchState × Scenario.TriggerResult)
    (st : Scenario.OrchState) (stype : String)
    (h : st.scenarioState = .running ∨ st.scenarioState = .paused) :
    (Scenario.triggerScenario exec st stype).2.success = false
    ∧ (Scenario.triggerScenario exec st stype).2.errorMessage.isSome = true
    ∧ (Scenario.triggerScenario exec st stype).1.scenarioState = .failed
    ∧ (Scenario.triggerScenario exec st stype).1.scenarioState
        ≠ st.scenarioState := by
  have hguard : ¬(st.scenarioState = .idle ∨ st.scenarioState = .completed
      ∨ st.scenarioState = .failed) := by
    rcases h with h | h <;> rw [h] <;> intro hc <;>
      rcases hc with hc | hc | hc <;> exact absurd hc (by decide)
  rcases h with h | h <;>
    simp [Scenario.triggerScenario, hguard, h]

/-- C10 witness: the rejection theorem applied to a RUNNING orchestrator
with a trivial accepted-path continuation. -/
theorem C10_trigger_while_running_fails_state_witness :
    (Scenario.triggerScenario (fun s _ => (s, ⟨true, none, .idle⟩))
        ⟨.running, none⟩ "cooling_crisis").2.success = false
    ∧ (Scenario.triggerScenario (fun s _ => (s, ⟨true, none, .idle⟩))
        ⟨.running, none⟩ "cooling_crisis").2.errorMessage.isSome = true
    ∧ (Scenario.triggerScenario (fun s _ => (s, ⟨true, none, .idle⟩))
        ⟨.running, none⟩ "cooling_crisis").1.scenarioState = .failed
    ∧ (Scenario.triggerScenario (fun s _ => (s, ⟨true, none, .idle⟩))
        ⟨.running, none⟩ "cooling_crisis").1.scenarioState
        ≠ (⟨.running, none⟩ : Scenario.OrchState).scenarioState :=
  C10_trigger_while_running_fails_state
    (fun s _ => (s, ⟨true, none, .idle⟩)) ⟨.running, none⟩ "cooling_crisis"
    (Or.inl rfl)

namespace Recovery

/-- A bus event as persisted or republished by the recovery manager:
`_restore_event_queue` publishes `event["type"]` with `event["data"]`. -/
structure EventRecord where
  eventType : String
  eventData : String
deriving DecidableEq, Repr

/-- The `EventQueueSnapshot` dataclass of `infrastructure/recovery.py`. -/
structure EventQueueSnapshot where
  pendingEvents : List EventRecord
  eventCount : Nat
  queueSize : Nat
deriving DecidableEq, Repr

/-- The slice of the Redis store the recovery manager uses for the event
queue: the value under the key `system:event_queue_snapshot` (JSON
serialization is elided). -/
structure RedisStore where
  eventQueueSnapshot : Option EventQueueSnapshot
deriving DecidableEq, Repr

/-- Embeds `RecoveryManager._persist_event_queue`, called by
`graceful_shutdown`.  The snapshot is constructed with
`pending_events=[]`, `event_count=0`, `queue_size=0`; the bus's actual
pending queue (the `busQueue` parameter, reachable through
`self.event_bus`) is never read — the source's comment says a real
implementation "would capture actual pending events from the event bus" —
and the empty snapshot is stored under `system:event_queue_snapshot`. -/
def persistEventQueue (busQueue : List EventRecord) (kv : RedisStore) :
    RedisStore :=
  { kv with eventQueueSnapshot := some ⟨[], 0, 0⟩ }

/-- Embeds `RecoveryManager._restore_event_queue`, called by
`system_recovery`: every event of the stored snapshot's `pending_events`
is republished on the bus in order; with no snapshot nothing is
published.  Returns the republished events. -/
def restoreEventQueue (kv : RedisStore) : List EventRecord :=
  match kv.eventQueueSnapshot with
  | some snap => snap.pendingEvents
  | none => []

/-- Three events enqueued but undelivered at shutdown (the spec's recovery
test enqueues three events before `graceful_shutdown`). -/
def threePending : List EventRecord :=
  [⟨"hvac.temperature.changed", "e1"⟩,
   ⟨"facility.security.event", "e2"⟩,
   ⟨"facility.network.event", "e3"⟩]

end Recovery

/-- C2: the claim says `graceful_shutdown` persists the bus's pending event
queue and `system_recovery` republishes exactly those pending events.  The
source persists a snapshot whose `pending_events` list is ALWAYS empty,
so recovery republishes nothing: for every bus queue and store, a persist
followed by a restore yields `[]`; in particular the three pending events
of the concrete run are all lost, not delivered. -/
theorem C2_pending_events_not_persisted :
    (∀ (busQueue : List Recovery.EventRecord) (kv : Recovery.RedisStore),
        Recovery.restoreEventQueue (Recovery.persistEventQueue busQueue kv) = [])
    ∧ Recovery.restoreEventQueue
        (Recovery.persistEventQueue Recovery.threePending ⟨none⟩) = []
    ∧ Recovery.threePending.length = 3
    ∧ Recovery.threePending ≠ [] := by
  refine ⟨fun q kv => rfl, rfl, rfl, by decide⟩

namespace Memory

/-- The `MemoryPriority` enum of `infrastructure/memory.py`. -/
inductive MemPriority
  | critical
  | high
  | medium
  | low
deriving DecidableEq, Repr

/-- Numeric enum values: `CRITICAL = 1`, `HIGH = 2`, `MEDIUM = 3`,
`LOW = 4`. -/
def MemPriority.value : MemPriority → Nat
  | .critical => 1
  | .high => 2
  | .medium => 3
  | .low => 4

/-- The `ModelInfo` fields the cache and cleanup logic consult (the model
instance itself, usage counters and load time do not bear on eviction). -/
structure ModelInfo where
  modelId : String
  priority : MemPriority
  lastUsed : ℚ
  estimatedMemoryMb : ℚ
deriving DecidableEq, Repr

/-- Embeds `LRUModelCache.put`.  The cache is the `OrderedDict` as a list,
least-recently-used first.  An existing key is popped and re-appended; a
new key with the cache full evicts the front (least recently used)
REGARDLESS of its priority (`self.cache.popitem(last=False)`), returning
the evicted entry. -/
def cachePut (maxSize : Nat) (cache : List ModelInfo) (info : ModelInfo) :
    List ModelInfo × Option ModelInfo :=
  if cache.any (fun m => m.modelId == info.modelId) then
    (cache.filter (fun m => m.modelId != info.modelId) ++ [info], none)
  else if maxSize ≤ cache.length then
    match cache with
    | [] => ([info], none)
    | lru :: rest => (rest ++ [info], some lru)
  else (cache ++ [info], none)

/-- The comparison key of `cleanup_memory`'s
`models.sort(key=lambda m: (m.priority.value, m.last_used))`: lexicographic
on (priority value, last-used time).  Note `CRITICAL` has the SMALLEST
value (1), so it sorts first. -/
def sortKeyLe (a b : ModelInfo) : Bool :=
  decide (a.priority.value < b.priority.value)
  || (a.priority.value == b.priority.value && decide (a.lastUsed ≤ b.lastUsed))

/-- Stable insertion for ascending sort: the inserted element (originally
earlier) goes before the first element whose key is not smaller. -/
def insertAscBy (a : ModelInfo) : List ModelInfo → List ModelInfo
  | [] => [a]
  | b :: bs => if sortKeyLe a b then a :: b :: bs else b :: insertAscBy a bs

/-- Stable ascending sort by `(priority.value, last_used)` — the unique
permutation Python's stable `list.sort(key=...)` produces. -/
def sortModels : List ModelInfo → List ModelInfo
  | [] => []
  | a :: as => insertAscBy a (sortModels as)

/-- Embeds the eviction `while` loop of `MemoryOptimizer.cleanup_memory`:
`models` is the sorted working list, popped from the front; `cache` the
live cache; `cleaned` the counter; `used i` the i-th memory reading
(`get_memory_stats` is re-invoked after each successful removal, so the
reading index advances only then, mirroring the source's `stats`
variable).  The loop runs while more than `target` models remain AND
(the current reading is at least `0.9 × threshold` OR `force`). -/
def cleanupLoop (force : Bool) (threshold : ℚ) (used : Nat → ℚ) (target : Nat) :
    List ModelInfo → List ModelInfo → Nat → Nat → Nat × List ModelInfo
  | [], cache, cleaned, _ => (cleaned, cache)
  | m :: rest, cache, cleaned, i =>
    if target < rest.length + 1 ∧ (threshold * (9 / 10) ≤ used i ∨ force = true) then
      if cache.any (fun x => x.modelId == m.modelId) then
        cleanupLoop force threshold used target rest
          (cache.filter (fun x => x.modelId != m.modelId)) (cleaned + 1) (i + 1)
      else
        cleanupLoop force threshold used target rest cache cleaned i
    else (cleaned, cache)

/-- Embeds `MemoryOptimizer.cleanup_memory`.  Memory readings come from
`psutil` and are parameters: `used i` / `percent i` are the used-GB and
percent figures of the i-th `get_memory_stats` call.  Cleanup happens when
forced, or the first reading is at or above the threshold, or at or above
85 percent.  The models are then sorted ascending by
`(priority.value, last_used)` — which places CRITICAL (value 1) FIRST —
and the loop evicts from the FRONT of that order
(`models.pop(0)`), keeping at least
`target = max(1, max_concurrent_models // 2)` models. -/
def cleanupMemory (force : Bool) (used percent : Nat → ℚ) (threshold : ℚ)
    (maxConcurrent : Nat) (cache : List ModelInfo) : Nat × List ModelInfo :=
  if force = true ∨ threshold ≤ used 0 ∨ (85 : ℚ) ≤ percent 0 then
    cleanupLoop force threshold used (max 1 (maxConcurrent / 2))
      (sortModels cache) cache 0 0
  else (0, cache)

/-- A CRITICAL-priority slot, least recently used (`last_used = 10`). -/
def critSlot : ModelInfo := ⟨"security_model", .critical, 10, 4500⟩

/-- A LOW-priority slot, more recently used (`last_used = 20`). -/
def lowSlot : ModelInfo := ⟨"analytics_model", .low, 20, 500⟩

/-- A HIGH-priority slot, most recently used (`last_used = 30`). -/
def highSlot : ModelInfo := ⟨"hvac_model", .high, 30, 800⟩

end Memory

/-- C3: the claim says a CRITICAL slot is never evicted by ordinary
(non-force) cleanup and that loading a new model never evicts a cached
CRITICAL slot.  Both fail.  First conjunct: with a CRITICAL and a LOW slot
cached, memory used at 7.5 GB against the 7.0 GB threshold, and
`force=False`, `cleanup_memory` sorts ascending by `(priority.value,
last_used)` — CRITICAL's value 1 sorts FIRST — and pops from the front, so
it evicts the CRITICAL slot and keeps the LOW one (the source's own
comment "higher priority = lower number = keep longer" says the opposite).
Second conjunct: with the cache full, `LRUModelCache.put` evicts the
least-recently-used entry regardless of priority, here the CRITICAL
slot. -/
theorem C3_critical_slot_evicted :
    Memory.cleanupMemory false (fun _ => 15 / 2) (fun _ => 80) 7 2
        [Memory.critSlot, Memory.lowSlot] = (1, [Memory.lowSlot])
    ∧ Memory.cachePut 2 [Memory.critSlot, Memory.highSlot] Memory.lowSlot
        = ([Memory.highSlot, Memory.lowSlot], some Memory.critSlot)
    ∧ Memory.critSlot.priority = .critical := by
  refine ⟨?_, ?_, rfl⟩
  · norm_num [Memory.cleanupMemory, Memory.cleanupLoop, Memory.sortModels,
      Memory.insertAscBy, Memory.sortKeyLe, Memory.critSlot, Memory.lowSlot,
      Memory.MemPriority.value]
    decide
  · simp +decide [Memory.cachePut, Memory.critSlot, Memory.lowSlot,
      Memory.highSlot]
